import Mathlib

/-!
Shallow embedding of the `LearningTracker` progress store (a single-user
curriculum progress tracker persisted to a local JSON file) and proofs about
its schema-migration, flag-mutation, aggregation and persistence operations.

JSON objects (Python dicts) are modelled as insertion-ordered association
lists `List (String × α)`; `dget` models `d[k]` / `k in d` reads (first
matching key) and `dset` models `d[k] = v` on a present key (the value is
replaced in place, preserving position, exactly as a Python dict does).
Appending at the end models insertion of a fresh key.

Machine timestamps (`datetime.now()` formatted strings) are passed in as
explicit string parameters.  Python float arithmetic on these small
percentages is modelled with `Rat`; every expression the code computes is of
the form `(a / b) * 100` or `sum / len`, so the rational value is the value
the specification reasons about.
-/

set_option autoImplicit false

namespace LearningTracker

/-- Reading `d[k]` on a Python dict: the value at the first matching key.
Here `dget d k = none` models both `k not in d` and the `KeyError` a read
raises. -/
def dget {α : Type} : List (String × α) → String → Option α
  | [], _ => none
  | p :: rest, k => if p.1 = k then some p.2 else dget rest k

/-- Writing `d[k] = v` on a key already present in a Python dict: the first
entry with key `k` has its value replaced in place; positions of all entries
are kept. -/
def dset {α : Type} : List (String × α) → String → α → List (String × α)
  | [], _, _ => []
  | p :: rest, k, v => if p.1 = k then (p.1, v) :: rest else p :: dset rest k v

/-- A resource entry: `{name, url, completed}`. -/
structure Resource where
  name : String
  url : String
  completed : Bool
deriving DecidableEq, Repr

/-- A task entry: `{name, completed}`. -/
structure Task where
  name : String
  completed : Bool
deriving DecidableEq, Repr

/-- One stage of the record: `{name, completed, progress, resources, tasks}`.
The `resources` key may be absent from stored data (the code guards reads
with `stage.get('resources', {})` and membership checks), so it is an
`Option`; `none` models the absent key. -/
structure Stage where
  name : String
  completed : Bool
  progress : Rat
  resources : Option (List (String × Resource))
  tasks : List (String × Task)
deriving DecidableEq, Repr

/-- Metadata: `{start_date, last_update, total_progress}`. -/
structure Metadata where
  start_date : String
  last_update : String
  total_progress : Rat
deriving DecidableEq, Repr

/-- The full progress record: top-level keys `stages` and `metadata`. -/
structure Record where
  stages : List (String × Stage)
  metadata : Metadata
deriving DecidableEq, Repr

/-- The first default stage of the curriculum template. -/
def stage1Default : Stage :=
  { name := "Основы Python (3-8 недель)"
    completed := false
    progress := 0
    resources := some
      [("resource1",
        { name := "Программирование на Python (Stepik)"
          url := "https://stepik.org/course/67/promo"
          completed := false }),
       ("resource2",
        { name := "Интерактивный тренажер Hexlet"
          url := "https://ru.hexlet.io/courses/python-basics"
          completed := false }),
       ("resource3",
        { name := "Python для начинающих (YouTube-канал Егорова)"
          url := "https://www.youtube.com/playlist?list=PLQAt0m1f9OHvGM7Y7jZBZS-9wTksAidIF"
          completed := false }),
       ("resource4",
        { name := "Книга \"Изучаем Python\" (Эрик Мэтиз)"
          url := "https://www.ozon.ru/product/izuchaem-python-programmirovanie-igr-vizualizatsiya-dannyh-prilozheniya-erik-metiz-207759704/"
          completed := false })]
    tasks :=
      [("task1", { name := "Зарегистрироваться на Coding Game", completed := false }),
       ("task2", { name := "Решить 20+ простых задач", completed := false }),
       ("task3", { name := "Создать калькулятор", completed := false }),
       ("task4", { name := "Создать конвертер валют", completed := false }),
       ("task5", { name := "Создать программу для учета финансов", completed := false })] }

/-- The second default stage of the curriculum template. -/
def stage2Default : Stage :=
  { name := "Освоение Git и GitHub (1-2 недели)"
    completed := false
    progress := 0
    resources := some
      [("resource1",
        { name := "GitHub Skills"
          url := "https://skills.github.com/"
          completed := false }),
       ("resource2",
        { name := "Learn Git Branching"
          url := "https://learngitbranching.js.org/"
          completed := false }),
       ("resource3",
        { name := "Pro Git (книга)"
          url := "https://git-scm.com/book/ru/v2"
          completed := false })]
    tasks :=
      [("task1", { name := "Установить Git на компьютер", completed := false }),
       ("task2", { name := "Создать аккаунт на GitHub", completed := false }),
       ("task3", { name := "Создать первый репозиторий", completed := false }),
       ("task4", { name := "Сделать 5+ коммитов", completed := false }),
       ("task5", { name := "Создать ветку и merge request", completed := false })] }

/-- The third default stage of the curriculum template. -/
def stage3Default : Stage :=
  { name := "Углубленное изучение Python (1-2 месяца)"
    completed := false
    progress := 0
    resources := some
      [("resource1",
        { name := "Python. К вершинам мастерства (Лучано Рамальо)"
          url := "https://www.ozon.ru/product/python-k-vershinam-masterstva-144901049/"
          completed := false }),
       ("resource2",
        { name := "Официальная документация Python"
          url := "https://docs.python.org/3/tutorial/index.html"
          completed := false })]
    tasks :=
      [("task1", { name := "Изучить ООП: классы и объекты", completed := false }),
       ("task2", { name := "Изучить наследование и полиморфизм", completed := false }),
       ("task3", { name := "Освоить виртуальные окружения", completed := false }),
       ("task4", { name := "Изучить менеджер пакетов pip", completed := false }),
       ("task5", { name := "Создать телефонный справочник", completed := false }),
       ("task6", { name := "Создать игру «Виселица»", completed := false }),
       ("task7", { name := "Создать парсер сайта", completed := false }),
       ("task8", { name := "Создать Telegram-бота", completed := false })] }

/-- The fourth default stage of the curriculum template. -/
def stage4Default : Stage :=
  { name := "Выбор специализации (2-4 месяца)"
    completed := false
    progress := 0
    resources := some
      [("web_resource1",
        { name := "Официальная документация Django"
          url := "https://docs.djangoproject.com/"
          completed := false }),
       ("web_resource2",
        { name := "Официальная документация Flask"
          url := "https://flask.palletsprojects.com/"
          completed := false }),
       ("web_resource3",
        { name := "Web-разработка на Python (Stepik)"
          url := "https://stepik.org/course/154538/promo"
          completed := false }),
       ("ds_resource1",
        { name := "Machine Learning на Coursera"
          url := "https://www.coursera.org/specializations/machine-learning-introduction"
          completed := false })]
    tasks :=
      [("task1", { name := "Выбрать специализацию", completed := false }),
       ("task2", { name := "Изучить выбранный фреймворк", completed := false }),
       ("task3", { name := "Изучить базы данных", completed := false }),
       ("task4", { name := "Создать проект на выбранном фреймворке", completed := false }),
       ("task5", { name := "Разработать REST API", completed := false }),
       ("task6", { name := "Изучить дополнительные библиотеки", completed := false })] }

/-- The hard-coded curriculum template: the `stages` value built by
`get_default_data` (its `metadata` timestamps vary per call and are supplied
separately). -/
def defaultStages : List (String × Stage) :=
  [("stage1", stage1Default), ("stage2", stage2Default),
   ("stage3", stage3Default), ("stage4", stage4Default)]

/-- Function `get_default_data`: the fresh record built from the curriculum template.
`startDate` and `lastUpdate` stand for the `datetime.now()` strings. -/
def get_default_data (startDate lastUpdate : String) : Record :=
  { stages := defaultStages
    metadata :=
      { start_date := startDate
        last_update := lastUpdate
        total_progress := 0 } }

/-- The inner `for task_id in default_tasks` loop of `fix_missing_data`:
every default task id absent from `cur` is inserted (at the end, as Python
dict insertion of a fresh key does); present ids are left alone. -/
def addMissingTasks (cur defaults : List (String × Task)) : List (String × Task) :=
  defaults.foldl (fun acc p => if dget acc p.1 = none then acc ++ [p] else acc) cur

/-- The per-stage step of `fix_missing_data` applied to a stage present in
the input: if the `resources` key is absent, the whole default `resources`
mapping is installed; then missing default task ids are inserted. -/
def fixStage (dstage cstage : Stage) : Stage :=
  let cstage1 :=
    if cstage.resources = none then { cstage with resources := dstage.resources }
    else cstage
  { cstage1 with tasks := addMissingTasks cstage1.tasks dstage.tasks }

/-- One iteration of the `for stage_id in default_data['stages']` loop of
`fix_missing_data`, acting on the current `data['stages']` dict. -/
def fixStep (acc : List (String × Stage)) (p : String × Stage) :
    List (String × Stage) :=
  match dget acc p.1 with
  | some cstage => dset acc p.1 (fixStage p.2 cstage)
  | none => acc ++ [p]

/-- Function `fix_missing_data` (the spec's `migrate`): for every stage id of the
default, a missing stage is inserted wholesale; a present stage has the
default `resources` installed only when its `resources` key is absent, and
missing default task ids inserted.  `metadata` is untouched. -/
def fix_missing_data (defaultData data : Record) : Record :=
  { data with stages := defaultData.stages.foldl fixStep data.stages }

/-- The observable state of a JSON file on disk.  `valid r` is a readable
file whose content parses and is shaped so that the pipeline consuming it
does not raise; `invalid` is a file that exists but whose consumption raises
somewhere inside the `try` block (unreadable, not JSON, or JSON whose shape
makes `fix_missing_data` raise a `KeyError`/`TypeError`); `absent` is no
file at all (`os.path.exists` false, or `open` raising `FileNotFoundError`
for `import_progress`).  The bare `except` of the code treats every raising
case alike, which is what this abstraction captures. -/
inductive FileState where
  | absent
  | invalid
  | valid (r : Record)
deriving DecidableEq, Repr

/-- Function `load_data`: if the file exists, parse it and run it through
`fix_missing_data`, all inside `try`; on any failure, and when the file is
absent, return `get_default_data()`. -/
def load_data (defaultData : Record) : FileState → Record
  | .absent => defaultData
  | .invalid => defaultData
  | .valid r => fix_missing_data defaultData r

/-- The tracker's state: the in-memory record `self.data` and the backing
`learning_progress.json` file. -/
structure Tracker where
  data : Record
  file : FileState
deriving DecidableEq, Repr

/-- Function `save_data`: stamps `metadata['last_update']` with the current time and
overwrites the backing file with the (stamped) in-memory record. -/
def save_data (now : String) (t : Tracker) : Tracker :=
  let d := { t.data with metadata := { t.data.metadata with last_update := now } }
  { data := d, file := .valid d }

/-- The body of `update_stage_progress` once the stage dict is in hand:
`progress = ((completed_tasks + completed_resources) / total_items) * 100`
when `total_items > 0`, else `0`; `completed = progress >= 100`.
`stage.get('resources', {})` is `resources.getD []`. -/
def recompute_stage (stage : Stage) : Stage :=
  let tasks := stage.tasks
  let resources := stage.resources.getD []
  let completed_tasks := (tasks.filter fun p => p.2.completed).length
  let completed_resources := (resources.filter fun p => p.2.completed).length
  let total_items := tasks.length + resources.length
  let progress : Rat :=
    if total_items > 0 then
      (((completed_tasks : Rat) + completed_resources) / total_items) * 100
    else 0
  { stage with progress := progress, completed := decide (progress ≥ 100) }

/-- Function `update_stage_progress(stage_id)`: recomputes the named stage in place;
`none` models the `KeyError` raised when `stage_id` is not in the record. -/
def update_stage_progress (stage_id : String) (r : Record) : Option Record :=
  (dget r.stages stage_id).map fun stage =>
    { r with stages := dset r.stages stage_id (recompute_stage stage) }

/-- Function `update_total_progress`:
`metadata['total_progress'] = sum(stage['progress']) / len(stages)`; `none`
models the `ZeroDivisionError` raised when there are zero stages. -/
def update_total_progress (r : Record) : Option Record :=
  if r.stages.length = 0 then none
  else some
    { r with metadata :=
        { r.metadata with
            total_progress :=
              ((r.stages.map fun p => p.2.progress).sum) / (r.stages.length : Rat) } }

/-- Function `update_task(stage_id, task_id, completed)`: sets the flag on an existing
task, recomputes the stage and the total, then saves.  `none` models the
uncaught `KeyError` on a missing stage or task id, raised before any write:
under it `self.data` and the backing file keep their prior values. -/
def update_task (now stage_id task_id : String) (completed : Bool)
    (t : Tracker) : Option Tracker :=
  match dget t.data.stages stage_id with
  | none => none
  | some stage =>
    match dget stage.tasks task_id with
    | none => none
    | some task =>
      let data1 :=
        { t.data with
            stages := dset t.data.stages stage_id
              { stage with
                  tasks := dset stage.tasks task_id { task with completed := completed } } }
      match update_stage_progress stage_id data1 with
      | none => none
      | some data2 =>
        match update_total_progress data2 with
        | none => none
        | some data3 => some (save_data now { t with data := data3 })

/-- Function `update_resource(stage_id, resource_id, completed)`: the resource
counterpart of `update_task`.  Unlike `update_stage_progress`, the mutation
reads `['resources']` directly, so an absent `resources` key also raises. -/
def update_resource (now stage_id resource_id : String) (completed : Bool)
    (t : Tracker) : Option Tracker :=
  match dget t.data.stages stage_id with
  | none => none
  | some stage =>
    match stage.resources with
    | none => none
    | some resources =>
      match dget resources resource_id with
      | none => none
      | some resource =>
        let data1 :=
          { t.data with
              stages := dset t.data.stages stage_id
                { stage with
                    resources :=
                      some (dset resources resource_id
                        { resource with completed := completed }) } }
        match update_stage_progress stage_id data1 with
        | none => none
        | some data2 =>
          match update_total_progress data2 with
          | none => none
          | some data3 => some (save_data now { t with data := data3 })

/-- Function `export_progress(filename)`: dumps the in-memory record to the given
path.  The first component is the (unchanged) tracker, the second the
content written to the export path. -/
def export_progress (t : Tracker) : Tracker × FileState :=
  (t, .valid t.data)

/-- Function `import_progress(filename)`: parses the chosen file and installs
`fix_missing_data` of it as the in-memory record, returning `True`; any
exception (unreadable, not JSON, shape making `fix_missing_data` raise —
the assignment to `self.data` happens only after `fix_missing_data`
returns) is caught and `False` returned with `self.data` untouched.
The backing file is not written either way. -/
def import_progress (defaultData : Record) (file : FileState) (t : Tracker) :
    Tracker × Bool :=
  match file with
  | .valid r => ({ t with data := fix_missing_data defaultData r }, true)
  | _ => (t, false)

/-- Function `reset_progress` (the spec's `reset`, from the GUI handler): replaces the
in-memory record with a fresh default and saves immediately. -/
def reset_progress (freshDefault : Record) (now : String) (t : Tracker) : Tracker :=
  save_data now { t with data := freshDefault }

/-- The percentage of (resources + tasks) items of a stage with
`completed == true`, as the specified invariant states it:
`100 * completed items / total items`, `0` for a stage with no items. -/
def specStageProgress (s : Stage) : Rat :=
  let total := s.tasks.length + (s.resources.getD []).length
  if total = 0 then 0
  else
    100 * (((s.tasks.filter fun p => p.2.completed).length : Rat) +
        (((s.resources.getD []).filter fun p => p.2.completed).length : Rat)) / total

/-- The specified record invariant: every stage's `progress` is the
percentage of its completed items, and `metadata.total_progress` is the
unweighted mean of all stage progresses. -/
def recordInvariant (r : Record) : Prop :=
  (∀ p ∈ r.stages, (p : String × Stage).2.progress = specStageProgress p.2) ∧
  r.metadata.total_progress =
    ((r.stages.map fun p => p.2.progress).sum) / (r.stages.length : Rat)

/-! Concrete inputs used to instantiate the theorems below. -/

/-- A stage with 3 tasks and 2 resources of which exactly 2 tasks and 1
resource are completed (the aggregation example of the specification). -/
def exampleStageC6 : Stage :=
  { name := "example"
    completed := false
    progress := 0
    resources := some
      [("r1", { name := "r1", url := "u1", completed := true }),
       ("r2", { name := "r2", url := "u2", completed := false })]
    tasks :=
      [("t1", { name := "t1", completed := true }),
       ("t2", { name := "t2", completed := true }),
       ("t3", { name := "t3", completed := false })] }

/-- A record holding `exampleStageC6` under stage id `"s"`. -/
def exampleRecordC6 : Record :=
  { stages := [("s", exampleStageC6)]
    metadata := { start_date := "a", last_update := "b", total_progress := 0 } }

/-- A record whose three stages carry progress values 0, 50 and 100 (the
total-progress example of the specification). -/
def exampleRecordC7 : Record :=
  { stages :=
      [("a", { name := "a", completed := false, progress := 0,
               resources := none, tasks := [] }),
       ("b", { name := "b", completed := false, progress := 50,
               resources := none, tasks := [] }),
       ("c", { name := "c", completed := true, progress := 100,
               resources := none, tasks := [] })]
    metadata := { start_date := "a", last_update := "b", total_progress := 0 } }

/-- An empty-stages record (for the zero-stages branch of the total). -/
def emptyStagesRecord : Record :=
  { stages := []
    metadata := { start_date := "a", last_update := "b", total_progress := 0 } }

/-- A one-task stage without a `resources` key, progress consistently 0. -/
def smallStage : Stage :=
  { name := "s", completed := false, progress := 0,
    resources := none,
    tasks := [("t1", { name := "w", completed := false })] }

/-- A one-stage, one-task tracker satisfying the progress invariant. -/
def smallTracker : Tracker :=
  { data :=
      { stages := [("s1", smallStage)]
        metadata := { start_date := "a", last_update := "b", total_progress := 0 } }
    file := .absent }

/-- The tracker produced by `update_task "now" "s1" "t1" true smallTracker`. -/
def smallTrackerAfter : Tracker :=
  { data :=
      { stages :=
          [("s1", { name := "s", completed := true, progress := 100,
                    resources := none,
                    tasks := [("t1", { name := "w", completed := true })] })]
        metadata := { start_date := "a", last_update := "now", total_progress := 100 } }
    file := .valid
      { stages :=
          [("s1", { name := "s", completed := true, progress := 100,
                    resources := none,
                    tasks := [("t1", { name := "w", completed := true })] })]
        metadata := { start_date := "a", last_update := "now", total_progress := 100 } } }

/-- A one-resource stage with no tasks, progress consistently 0. -/
def smallResStage : Stage :=
  { name := "s", completed := false, progress := 0,
    resources := some [("r1", { name := "w", url := "u", completed := false })],
    tasks := [] }

/-- A one-stage, one-resource tracker satisfying the progress invariant. -/
def smallResTracker : Tracker :=
  { data :=
      { stages := [("s1", smallResStage)]
        metadata := { start_date := "a", last_update := "b", total_progress := 0 } }
    file := .absent }

/-- The tracker produced by
`update_resource "now" "s1" "r1" true smallResTracker`. -/
def smallResTrackerAfter : Tracker :=
  { data :=
      { stages :=
          [("s1", { name := "s", completed := true, progress := 100,
                    resources := some [("r1", { name := "w", url := "u", completed := true })],
                    tasks := [] })]
        metadata := { start_date := "a", last_update := "now", total_progress := 100 } }
    file := .valid
      { stages :=
          [("s1", { name := "s", completed := true, progress := 100,
                    resources := some [("r1", { name := "w", url := "u", completed := true })],
                    tasks := [] })]
        metadata := { start_date := "a", last_update := "now", total_progress := 100 } } }

/-- The default record with fixed timestamps, as a shared concrete input. -/
def defaultRecordC : Record := get_default_data "2024-01-01" "2024-01-01 10:00:00"

/-- `stage1Default` with its `resources` mapping reduced to `resource1`
alone: `resource2`, `resource3` and `resource4` are missing from the
(present) `resources` key. -/
def trimmedStage1 : Stage :=
  { stage1Default with
      resources := some
        [("resource1",
          { name := "Программирование на Python (Stepik)"
            url := "https://stepik.org/course/67/promo"
            completed := false })] }

/-- The default record with `stage1` replaced by `trimmedStage1`. -/
def missingResourceRecord : Record :=
  { stages := dset defaultStages "stage1" trimmedStage1
    metadata := { start_date := "2024-01-01", last_update := "2024-01-01 10:00:00",
                  total_progress := 0 } }

/-- The default record with `metadata.total_progress` set to 77 while every
item stays uncompleted: a well-shaped import payload whose stored aggregate
disagrees with its items. -/
def inconsistentTotalRecord : Record :=
  { stages := defaultStages
    metadata := { start_date := "2024-01-01", last_update := "2024-01-01 10:00:00",
                  total_progress := 77 } }

/-- A tracker holding the fresh default, backing file in sync. -/
def defaultTracker : Tracker :=
  { data := defaultRecordC, file := .valid defaultRecordC }

section DictLemmas

variable {α : Type}

theorem dget_append (l₁ l₂ : List (String × α)) (k : String) :
    dget (l₁ ++ l₂) k = (dget l₁ k).orElse (fun _ => dget l₂ k) := by
  induction l₁ with
  | nil => simp [dget]
  | cons p rest ih =>
    by_cases h : p.1 = k <;> simp [dget, h, ih]

theorem dget_append_left {l₁ : List (String × α)} {k : String} {v : α}
    (h : dget l₁ k = some v) (l₂ : List (String × α)) :
    dget (l₁ ++ l₂) k = some v := by
  rw [dget_append, h]; rfl

theorem dget_append_right {l₁ : List (String × α)} {k : String}
    (h : dget l₁ k = none) (l₂ : List (String × α)) :
    dget (l₁ ++ l₂) k = dget l₂ k := by
  rw [dget_append, h]; rfl

theorem dget_dset_self {l : List (String × α)} {k : String} {w : α}
    (h : dget l k = some w) (v : α) : dget (dset l k v) k = some v := by
  induction l with
  | nil => simp [dget] at h
  | cons p rest ih =>
    by_cases hk : p.1 = k
    · simp [dget, dset, hk]
    · simp only [dget, dset, hk, if_false, if_neg hk] at h ⊢
      exact ih h

theorem dget_dset_ne {l : List (String × α)} {k k' : String} (hne : k' ≠ k)
    (v : α) : dget (dset l k v) k' = dget l k' := by
  induction l with
  | nil => simp [dset]
  | cons p rest ih =>
    by_cases hk : p.1 = k
    · have h1 : ¬ (p.1 = k') := fun h => hne (h ▸ hk ▸ rfl)
      rw [dset, if_pos hk, dget, if_neg h1, dget, if_neg h1]
    · rw [dset, if_neg hk, dget, dget]
      by_cases hk' : p.1 = k'
      · rw [if_pos hk', if_pos hk']
      · rw [if_neg hk', if_neg hk', ih]

theorem dset_eq_of_dget {l : List (String × α)} {k : String} {v : α}
    (h : dget l k = some v) : dset l k v = l := by
  induction l with
  | nil => rfl
  | cons p rest ih =>
    by_cases hk : p.1 = k
    · rw [dget, if_pos hk] at h
      rw [dset, if_pos hk, ← Option.some_inj.mp h]
    · rw [dget, if_neg hk] at h
      rw [dset, if_neg hk, ih h]

theorem dset_dset (l : List (String × α)) (k : String) (v w : α) :
    dset (dset l k v) k w = dset l k w := by
  induction l with
  | nil => rfl
  | cons p rest ih =>
    by_cases hk : p.1 = k
    · rw [dset, if_pos hk, dset, if_pos hk, dset, if_pos hk]
    · rw [dset, if_neg hk, dset, if_neg hk, dset, if_neg hk, ih]

theorem mem_dset {l : List (String × α)} {k : String} {v : α}
    {p : String × α} (h : p ∈ dset l k v) : p.2 = v ∨ p ∈ l := by
  induction l with
  | nil => simp [dset] at h
  | cons q rest ih =>
    by_cases hk : q.1 = k
    · rw [dset, if_pos hk, List.mem_cons] at h
      rcases h with h1 | h1
      · left; rw [h1]
      · right; exact List.mem_cons_of_mem _ h1
    · rw [dset, if_neg hk, List.mem_cons] at h
      rcases h with h1 | h1
      · right; rw [h1]; exact List.mem_cons_self _ _
      · rcases ih h1 with h2 | h2
        · left; exact h2
        · right; exact List.mem_cons_of_mem _ h2

theorem dget_ne_none_of_mem {l : List (String × α)} {k : String} {v : α}
    (h : (k, v) ∈ l) : dget l k ≠ none := by
  induction l with
  | nil => simp at h
  | cons p rest ih =>
    rcases List.mem_cons.mp h with h' | h'
    · simp [dget, ← h']
    · by_cases hk : p.1 = k <;> simp [dget, hk, ih h']

theorem dget_eq_of_nodup_mem {l : List (String × α)} {k : String} {v : α}
    (hnd : (l.map Prod.fst).Nodup) (h : (k, v) ∈ l) : dget l k = some v := by
  induction l with
  | nil => simp at h
  | cons p rest ih =>
    rcases List.mem_cons.mp h with h' | h'
    · simp [dget, ← h']
    · have hk : p.1 ≠ k := by
        intro hpk
        have : k ∈ rest.map Prod.fst := List.mem_map.mpr ⟨(k, v), h', rfl⟩
        rw [List.map_cons, List.nodup_cons] at hnd
        exact hnd.1 (hpk ▸ this)
      have hnd' : (rest.map Prod.fst).Nodup := by
        rw [List.map_cons, List.nodup_cons] at hnd
        exact hnd.2
      simp [dget, hk, ih hnd' h']

end DictLemmas

section TaskMergeLemmas

theorem dget_addMissingTasks_of_some {cur : List (String × Task)} {k : String}
    {v : Task} (h : dget cur k = some v) (defaults : List (String × Task)) :
    dget (addMissingTasks cur defaults) k = some v := by
  induction defaults generalizing cur with
  | nil => exact h
  | cons p rest ih =>
    rw [addMissingTasks, List.foldl_cons]
    by_cases hp : dget cur p.1 = none
    · rw [if_pos hp]
      exact ih (dget_append_left h [p])
    · rw [if_neg hp]
      exact ih h

theorem dget_addMissingTasks_ne_none {cur : List (String × Task)} {k : String}
    (h : dget cur k ≠ none) (defaults : List (String × Task)) :
    dget (addMissingTasks cur defaults) k ≠ none := by
  rcases Option.ne_none_iff_exists.mp h with ⟨v, hv⟩
  rw [dget_addMissingTasks_of_some hv.symm defaults]
  simp

theorem addMissingTasks_covers {defaults : List (String × Task)} :
    ∀ cur, ∀ p ∈ defaults, dget (addMissingTasks cur defaults) p.1 ≠ none := by
  induction defaults with
  | nil => intro cur p hp; simp at hp
  | cons q rest ih =>
    intro cur p hp
    rw [addMissingTasks, List.foldl_cons]
    have hstep : dget (if dget cur q.1 = none then cur ++ [q] else cur) q.1 ≠ none := by
      by_cases hq : dget cur q.1 = none
      · rw [if_pos hq, dget_append_right hq, dget, if_pos rfl]
        simp
      · rw [if_neg hq]; exact hq
    rcases List.mem_cons.mp hp with h1 | h1
    · rw [h1]
      exact dget_addMissingTasks_ne_none hstep rest
    · exact ih _ p h1

theorem addMissingTasks_eq_of_covered {defaults cur : List (String × Task)}
    (h : ∀ p ∈ defaults, dget cur p.1 ≠ none) :
    addMissingTasks cur defaults = cur := by
  induction defaults with
  | nil => rfl
  | cons q rest ih =>
    rw [addMissingTasks, List.foldl_cons,
      if_neg (h q (List.mem_cons_self _ _))]
    exact ih fun p hp => h p (List.mem_cons_of_mem _ hp)

theorem addMissingTasks_self (l : List (String × Task)) :
    addMissingTasks l l = l := by
  apply addMissingTasks_eq_of_covered
  intro p hp
  exact dget_ne_none_of_mem (show (p.1, p.2) ∈ l by simpa using hp)

theorem dget_addMissingTasks_of_missing {defaults : List (String × Task)}
    (hnd : (defaults.map Prod.fst).Nodup) :
    ∀ cur, ∀ p ∈ defaults, dget cur p.1 = none →
      dget (addMissingTasks cur defaults) p.1 = some p.2 := by
  induction defaults with
  | nil => intro cur p hp; simp at hp
  | cons q rest ih =>
    intro cur p hp hcur
    rw [List.map_cons, List.nodup_cons] at hnd
    rw [addMissingTasks, List.foldl_cons]
    rcases List.mem_cons.mp hp with h1 | h1
    · rw [h1, if_pos (h1 ▸ hcur)]
      have : dget (cur ++ [q]) q.1 = some q.2 := by
        rw [dget_append_right (h1 ▸ hcur), dget, if_pos rfl]
      exact h1 ▸ dget_addMissingTasks_of_some this rest
    · have hq : q.1 ≠ p.1 := by
        intro he
        exact hnd.1 (he ▸ List.mem_map.mpr ⟨p, h1, rfl⟩)
      by_cases hcq : dget cur q.1 = none
      · rw [if_pos hcq]
        have : dget (cur ++ [q]) p.1 = none := by
          rw [dget_append, hcur, dget, if_neg hq]
          rfl
        exact ih hnd.2 _ p h1 this
      · rw [if_neg hcq]
        exact ih hnd.2 _ p h1 hcur

end TaskMergeLemmas

section FixStageLemmas

theorem fixStage_name (d s : Stage) : (fixStage d s).name = s.name := by
  rw [fixStage]
  by_cases h : s.resources = none <;> simp [h]

theorem fixStage_completed (d s : Stage) :
    (fixStage d s).completed = s.completed := by
  rw [fixStage]
  by_cases h : s.resources = none <;> simp [h]

theorem fixStage_progress (d s : Stage) :
    (fixStage d s).progress = s.progress := by
  rw [fixStage]
  by_cases h : s.resources = none <;> simp [h]

theorem fixStage_resources (d s : Stage) :
    (fixStage d s).resources =
      if s.resources = none then d.resources else s.resources := by
  rw [fixStage]
  by_cases h : s.resources = none <;> simp [h]

theorem fixStage_tasks (d s : Stage) :
    (fixStage d s).tasks = addMissingTasks s.tasks d.tasks := by
  rw [fixStage]
  by_cases h : s.resources = none <;> simp [h]

theorem fixStage_self (d : Stage) : fixStage d d = d := by
  by_cases h : d.resources = none
  · simp [fixStage, h, addMissingTasks_self]
    cases d
    simp_all
  · simp [fixStage, h, addMissingTasks_self]

theorem fixStage_idem (d s : Stage) : fixStage d (fixStage d s) = fixStage d s := by
  have hres : (fixStage d (fixStage d s)).resources = (fixStage d s).resources := by
    rw [fixStage_resources d (fixStage d s), fixStage_resources d s]
    by_cases h : s.resources = none
    · rw [if_pos h]
      by_cases hd : d.resources = none
      · rw [if_pos hd]
      · rw [if_neg hd]
    · rw [if_neg h, if_neg h]
  have htasks : (fixStage d (fixStage d s)).tasks = (fixStage d s).tasks := by
    rw [fixStage_tasks d (fixStage d s), fixStage_tasks d s]
    exact addMissingTasks_eq_of_covered fun p hp =>
      addMissingTasks_covers s.tasks p hp
  have hname := fixStage_name d (fixStage d s)
  have hcomp := fixStage_completed d (fixStage d s)
  have hprog := fixStage_progress d (fixStage d s)
  cases hx : fixStage d (fixStage d s)
  cases hy : fixStage d s
  simp_all

end FixStageLemmas

section FixFoldLemmas

theorem dget_fixStep_ne {acc : List (String × Stage)} {p : String × Stage}
    {k : String} (h : k ≠ p.1) : dget (fixStep acc p) k = dget acc k := by
  rw [fixStep]
  cases hc : dget acc p.1 with
  | some c => exact dget_dset_ne h _
  | none =>
    rw [dget_append]
    cases hk : dget acc k with
    | some v => rfl
    | none =>
      show dget [p] k = none
      rw [dget, if_neg (fun he : p.1 = k => h he.symm), dget]

theorem dget_fixStep_some {acc : List (String × Stage)} {p : String × Stage}
    {c : Stage} (h : dget acc p.1 = some c) :
    dget (fixStep acc p) p.1 = some (fixStage p.2 c) := by
  rw [fixStep, h]
  exact dget_dset_self h _

theorem dget_fixStep_none {acc : List (String × Stage)} {p : String × Stage}
    (h : dget acc p.1 = none) : dget (fixStep acc p) p.1 = some p.2 := by
  rw [fixStep, h, dget_append_right h, dget, if_pos rfl]

theorem foldFix_not_mem {ds : List (String × Stage)} {k : String}
    (h : k ∉ ds.map Prod.fst) :
    ∀ acc, dget (ds.foldl fixStep acc) k = dget acc k := by
  induction ds with
  | nil => intro acc; rfl
  | cons p rest ih =>
    intro acc
    rw [List.map_cons] at h
    have h1 : k ≠ p.1 := fun he => h (he ▸ List.mem_cons_self _ _)
    have h2 : k ∉ rest.map Prod.fst := fun hm => h (List.mem_cons_of_mem _ hm)
    rw [List.foldl_cons, ih h2, dget_fixStep_ne h1]

theorem foldFix_present {ds : List (String × Stage)}
    (hnd : (ds.map Prod.fst).Nodup) :
    ∀ {sid : String} {dst : Stage}, (sid, dst) ∈ ds →
      ∀ {acc : List (String × Stage)} {st : Stage}, dget acc sid = some st →
        dget (ds.foldl fixStep acc) sid = some (fixStage dst st) := by
  induction ds with
  | nil => intro sid dst h; simp at h
  | cons p rest ih =>
    intro sid dst h acc st hacc
    rw [List.map_cons, List.nodup_cons] at hnd
    rw [List.foldl_cons]
    rcases List.mem_cons.mp h with h1 | h1
    · have hsid : sid = p.1 := congrArg Prod.fst h1
      have hdst : dst = p.2 := congrArg Prod.snd h1
      have hnot : sid ∉ rest.map Prod.fst := hsid ▸ hnd.1
      rw [foldFix_not_mem hnot]
      have hg : dget acc p.1 = some st := hsid ▸ hacc
      have hstep := dget_fixStep_some hg
      rw [hsid, hstep, hdst]
    · have hne : sid ≠ p.1 := by
        intro he
        exact hnd.1 (he ▸ List.mem_map.mpr ⟨(sid, dst), h1, rfl⟩)
      exact ih hnd.2 h1 (by rw [dget_fixStep_ne hne]; exact hacc)

theorem foldFix_fixedpoint {ds : List (String × Stage)}
    (hnd : (ds.map Prod.fst).Nodup) :
    ∀ {sid : String} {dst : Stage}, (sid, dst) ∈ ds →
      ∀ acc, ∃ st, dget (ds.foldl fixStep acc) sid = some st ∧
        fixStage dst st = st := by
  induction ds with
  | nil => intro sid dst h; simp at h
  | cons p rest ih =>
    intro sid dst h acc
    rw [List.map_cons, List.nodup_cons] at hnd
    rw [List.foldl_cons]
    rcases List.mem_cons.mp h with h1 | h1
    · have hsid : sid = p.1 := congrArg Prod.fst h1
      have hdst : dst = p.2 := congrArg Prod.snd h1
      have hnot : sid ∉ rest.map Prod.fst := hsid ▸ hnd.1
      rw [foldFix_not_mem hnot]
      cases hc : dget acc p.1 with
      | some c =>
        refine ⟨fixStage p.2 c, hsid ▸ dget_fixStep_some hc, ?_⟩
        rw [hdst]
        exact fixStage_idem p.2 c
      | none =>
        refine ⟨p.2, hsid ▸ dget_fixStep_none hc, ?_⟩
        rw [hdst]
        exact fixStage_self p.2
    · exact ih hnd.2 h1 (fixStep acc p)

theorem foldFix_id {ds : List (String × Stage)} :
    ∀ {acc : List (String × Stage)},
      (∀ p ∈ ds, ∃ st, dget acc p.1 = some st ∧ fixStage p.2 st = st) →
      ds.foldl fixStep acc = acc := by
  induction ds with
  | nil => intro acc _; rfl
  | cons p rest ih =>
    intro acc h
    rcases h p (List.mem_cons_self _ _) with ⟨st, hget, hfix⟩
    have hstep : fixStep acc p = acc := by
      rw [fixStep, hget]
      show dset acc p.1 (fixStage p.2 st) = acc
      rw [hfix]
      exact dset_eq_of_dget hget
    rw [List.foldl_cons, hstep]
    exact ih fun q hq => h q (List.mem_cons_of_mem _ hq)

/-- General idempotence of the migration, for any default whose stage ids are
distinct (as `defaultStages`'s are). -/
theorem fix_missing_data_idem {defaultData : Record}
    (hnd : (defaultData.stages.map Prod.fst).Nodup) (x : Record) :
    fix_missing_data defaultData (fix_missing_data defaultData x) =
      fix_missing_data defaultData x := by
  have key : defaultData.stages.foldl fixStep
        (defaultData.stages.foldl fixStep x.stages) =
      defaultData.stages.foldl fixStep x.stages := by
    apply foldFix_id
    intro p hp
    exact foldFix_fixedpoint hnd
      (show (p.1, p.2) ∈ defaultData.stages by simpa using hp) x.stages
  calc fix_missing_data defaultData (fix_missing_data defaultData x)
      = Record.mk (defaultData.stages.foldl fixStep
          (defaultData.stages.foldl fixStep x.stages)) x.metadata := rfl
    _ = Record.mk (defaultData.stages.foldl fixStep x.stages) x.metadata := by
          rw [key]
    _ = fix_missing_data defaultData x := rfl

/-- Migrating a record whose `stages` equal the default's is the identity. -/
theorem fix_missing_data_eq_self {defaultData : Record}
    (hnd : (defaultData.stages.map Prod.fst).Nodup) (x : Record)
    (hst : x.stages = defaultData.stages) :
    fix_missing_data defaultData x = x := by
  have key : defaultData.stages.foldl fixStep x.stages = x.stages := by
    apply foldFix_id
    intro p hp
    refine ⟨p.2, ?_, fixStage_self p.2⟩
    rw [hst]
    exact dget_eq_of_nodup_mem hnd
      (show (p.1, p.2) ∈ defaultData.stages by simpa using hp)
  calc fix_missing_data defaultData x
      = Record.mk (defaultData.stages.foldl fixStep x.stages) x.metadata := rfl
    _ = Record.mk x.stages x.metadata := by rw [key]
    _ = x := rfl

end FixFoldLemmas

section InvariantLemmas

theorem recompute_stage_tasks (s : Stage) : (recompute_stage s).tasks = s.tasks := rfl

theorem recompute_stage_resources (s : Stage) :
    (recompute_stage s).resources = s.resources := rfl

theorem recompute_stage_progress_spec (s : Stage) :
    (recompute_stage s).progress = specStageProgress s := by
  rw [recompute_stage, specStageProgress]
  by_cases h : s.tasks.length + (s.resources.getD []).length = 0
  · rw [if_neg (by omega), if_pos h]
  · rw [if_pos (by omega), if_neg h]
    push_cast
    ring

theorem recompute_stage_fixed (s : Stage) :
    (recompute_stage s).progress = specStageProgress (recompute_stage s) := by
  have h : specStageProgress (recompute_stage s) = specStageProgress s := rfl
  rw [h]
  exact recompute_stage_progress_spec s

/-- The common tail of `update_task` and `update_resource`: after the flag
write produced `stageA` at `stage_id`, recomputing the stage, recomputing the
total and saving yields a record satisfying the progress invariant, provided
all untouched stages already satisfied their half of it. -/
theorem mutate_tail_invariant {t : Tracker} {now stage_id : String}
    {stageA : Stage} {t' : Tracker}
    (hs1 : ∃ stage0, dget t.data.stages stage_id = some stage0)
    (horig : ∀ p ∈ t.data.stages,
      (p : String × Stage).2.progress = specStageProgress p.2)
    (h : (match update_stage_progress stage_id
            { t.data with stages := dset t.data.stages stage_id stageA } with
          | none => (none : Option Tracker)
          | some data2 =>
            match update_total_progress data2 with
            | none => none
            | some data3 => some (save_data now { t with data := data3 })) = some t') :
    recordInvariant t'.data := by
  rcases hs1 with ⟨stage0, hs1⟩
  have hA : dget (dset t.data.stages stage_id stageA) stage_id = some stageA :=
    dget_dset_self hs1 stageA
  have hstep1 : update_stage_progress stage_id
      { t.data with stages := dset t.data.stages stage_id stageA } =
      some { t.data with
              stages := dset t.data.stages stage_id (recompute_stage stageA) } := by
    rw [update_stage_progress, hA]
    simp only [Option.map_some', dset_dset]
  rw [hstep1] at h
  have h1 : (match update_total_progress
        { t.data with
            stages := dset t.data.stages stage_id (recompute_stage stageA) } with
      | none => (none : Option Tracker)
      | some data3 => some (save_data now { t with data := data3 })) = some t' := h
  have hB : dget (dset t.data.stages stage_id (recompute_stage stageA)) stage_id =
      some (recompute_stage stageA) := dget_dset_self hs1 _
  have hlen : ¬ (dset t.data.stages stage_id (recompute_stage stageA)).length = 0 := by
    intro h0
    rw [List.length_eq_zero.mp h0] at hB
    exact Option.noConfusion hB
  cases hc : update_total_progress
      { t.data with
          stages := dset t.data.stages stage_id (recompute_stage stageA) } with
  | none =>
    rw [hc] at h1
    exact absurd h1 (by simp)
  | some data3 =>
    rw [hc] at h1
    have ht' : t' = save_data now { t with data := data3 } :=
      (Option.some_inj.mp h1).symm
    unfold update_total_progress at hc
    rw [if_neg hlen] at hc
    have hd3 : data3 =
        { stages := dset t.data.stages stage_id (recompute_stage stageA)
          metadata :=
            { start_date := t.data.metadata.start_date
              last_update := t.data.metadata.last_update
              total_progress :=
                (((dset t.data.stages stage_id (recompute_stage stageA)).map
                    fun p => p.2.progress).sum) /
                  ((dset t.data.stages stage_id (recompute_stage stageA)).length : Rat) } } :=
      (Option.some_inj.mp hc).symm
    rw [ht', hd3]
    constructor
    · intro p hp
      have hps : p ∈ dset t.data.stages stage_id (recompute_stage stageA) := hp
      rcases mem_dset hps with h2 | h2
      · rw [h2]
        exact recompute_stage_fixed stageA
      · exact horig p h2
    · rfl

/-- The record produced by `get_default_data` satisfies the progress
invariant: every stage progress is 0 with no item completed, and the total
is 0, the mean of four zeros. -/
theorem default_recordInvariant (startDate lastUpdate : String) :
    recordInvariant (get_default_data startDate lastUpdate) := by
  constructor
  · intro p hp
    rw [get_default_data] at hp
    simp only [defaultStages, List.mem_cons, List.not_mem_nil, or_false] at hp
    rcases hp with h | h | h | h <;>
      (rw [h]
       simp [specStageProgress, List.filter, stage1Default, stage2Default,
         stage3Default, stage4Default])
  · rw [get_default_data]
    simp [defaultStages, stage1Default, stage2Default, stage3Default,
      stage4Default]

theorem defaultStages_keys_nodup : (defaultStages.map Prod.fst).Nodup := by
  simp [defaultStages]

theorem defaultStages_tasks_keys_nodup :
    ∀ p ∈ defaultStages, ((p : String × Stage).2.tasks.map Prod.fst).Nodup := by
  intro p hp
  simp only [defaultStages, List.mem_cons, List.not_mem_nil, or_false] at hp
  rcases hp with h | h | h | h <;>
    (rw [h]
     simp [stage1Default, stage2Default, stage3Default, stage4Default])

end InvariantLemmas

/-! The claim theorems. -/

/-- C6: `update_stage_progress` recomputes the named stage in place;
for a nonempty stage the progress becomes
`100 * (completedTasks + completedResources) / (totalTasks + totalResources)`,
for a zero-item stage it becomes `0` (no division error), `completed` is set
exactly when the progress is `≥ 100`, and on a stage with 3 tasks and 2
resources of which 2 tasks and 1 resource are completed the progress is 60. -/
theorem C6_recompute_stage_spec :
    (∀ (r : Record) (stage_id : String) (stage : Stage),
        dget r.stages stage_id = some stage →
        update_stage_progress stage_id r =
          some { r with stages := dset r.stages stage_id (recompute_stage stage) }) ∧
    (∀ s : Stage, 0 < s.tasks.length + (s.resources.getD []).length →
        (recompute_stage s).progress =
          100 * (((s.tasks.filter fun p => p.2.completed).length : Rat) +
              (((s.resources.getD []).filter fun p => p.2.completed).length : Rat)) /
            ((s.tasks.length : Rat) + ((s.resources.getD []).length : Rat))) ∧
    (∀ s : Stage, s.tasks.length + (s.resources.getD []).length = 0 →
        (recompute_stage s).progress = 0) ∧
    (∀ s : Stage, (recompute_stage s).completed =
        decide ((recompute_stage s).progress ≥ 100)) ∧
    (recompute_stage exampleStageC6).progress = 60 := by
  refine ⟨?_, ?_, ?_, ?_, ?_⟩
  · intro r stage_id stage h
    rw [update_stage_progress, h]
    simp only [Option.map_some']
  · intro s h
    rw [recompute_stage_progress_spec, specStageProgress]
    rw [if_neg (by omega)]
    push_cast
    ring
  · intro s h
    rw [recompute_stage_progress_spec, specStageProgress, if_pos h]
  · intro s
    rfl
  · rw [recompute_stage_progress_spec]
    simp [specStageProgress, exampleStageC6, List.filter]
    norm_num

/-- Witness for C6 at `exampleRecordC6` / `exampleStageC6`. -/
theorem C6_witness :
    update_stage_progress "s" exampleRecordC6 =
      some { exampleRecordC6 with
              stages := dset exampleRecordC6.stages "s" (recompute_stage exampleStageC6) } ∧
    (recompute_stage exampleStageC6).progress =
      100 * (((exampleStageC6.tasks.filter fun p => p.2.completed).length : Rat) +
          (((exampleStageC6.resources.getD []).filter fun p => p.2.completed).length : Rat)) /
        ((exampleStageC6.tasks.length : Rat) + ((exampleStageC6.resources.getD []).length : Rat)) :=
  ⟨C6_recompute_stage_spec.1 exampleRecordC6 "s" exampleStageC6
      (by simp [exampleRecordC6, dget]),
   C6_recompute_stage_spec.2.1 exampleStageC6 (by simp [exampleStageC6])⟩

/-- C7: `update_total_progress` sets `metadata.total_progress` to the
unweighted mean of all stage progress values; with zero stages it is
undefined (the code raises `ZeroDivisionError`, modelled as `none`); on
stages with progress values 0, 50 and 100 it yields 50. -/
theorem C7_update_total_progress_spec :
    (∀ r : Record, r.stages ≠ [] →
        update_total_progress r =
          some { r with metadata :=
              { r.metadata with
                  total_progress :=
                    ((r.stages.map fun p => p.2.progress).sum) /
                      (r.stages.length : Rat) } }) ∧
    (∀ r : Record, r.stages = [] → update_total_progress r = none) ∧
    (update_total_progress exampleRecordC7).map
        (fun r => r.metadata.total_progress) = some 50 := by
  refine ⟨?_, ?_, ?_⟩
  · intro r h
    unfold update_total_progress
    rw [if_neg (fun h0 => h (List.length_eq_zero.mp h0))]
  · intro r h
    unfold update_total_progress
    rw [if_pos (by rw [h]; rfl)]
  · unfold update_total_progress
    norm_num [exampleRecordC7]

/-- Witness for C7 at `exampleRecordC7` and `emptyStagesRecord`. -/
theorem C7_witness :
    update_total_progress exampleRecordC7 =
      some { exampleRecordC7 with metadata :=
          { exampleRecordC7.metadata with
              total_progress :=
                ((exampleRecordC7.stages.map fun p => p.2.progress).sum) /
                  (exampleRecordC7.stages.length : Rat) } } ∧
    update_total_progress emptyStagesRecord = none :=
  ⟨C7_update_total_progress_spec.1 exampleRecordC7 (by simp [exampleRecordC7]),
   C7_update_total_progress_spec.2.1 emptyStagesRecord rfl⟩

/-- C10: `export_progress` writes the current in-memory record to the given
path and leaves the tracker (in particular `metadata.last_update`) entirely
unchanged, whereas `save_data` overwrites `metadata.last_update` with the
current timestamp before writing. -/
theorem C10_export_frame_save_stamps :
    ∀ (t : Tracker) (now : String),
      export_progress t = (t, FileState.valid t.data) ∧
      (save_data now t).data =
        { t.data with metadata := { t.data.metadata with last_update := now } } ∧
      (save_data now t).file = FileState.valid (save_data now t).data := by
  intro t now
  exact ⟨rfl, rfl, rfl⟩

/-- C4: when the imported file cannot be consumed (absent, unreadable, not
JSON, or shaped so that migration raises — all modelled by the non-`valid`
file states), `import_progress` returns `False` and the in-memory record
and backing file are exactly as before: a corrupt import is never applied,
not even in part. -/
theorem C4_import_failure_unchanged :
    ∀ (defaultData : Record) (f : FileState) (t : Tracker),
      f = FileState.absent ∨ f = FileState.invalid →
      import_progress defaultData f t = (t, false) := by
  intro defaultData f t h
  rcases h with h | h <;> rw [h] <;> rfl

/-- Witness for C4 at the default tracker and both failing file states. -/
theorem C4_witness :
    import_progress defaultRecordC FileState.invalid defaultTracker =
      (defaultTracker, false) ∧
    import_progress defaultRecordC FileState.absent defaultTracker =
      (defaultTracker, false) :=
  ⟨C4_import_failure_unchanged defaultRecordC FileState.invalid defaultTracker (Or.inr rfl),
   C4_import_failure_unchanged defaultRecordC FileState.absent defaultTracker (Or.inl rfl)⟩

/-- C8: for every failing state of the backing file — absent, or unreadable
or malformed in any way that makes the guarded load raise (modelled by
`FileState.invalid`) — `load_data` returns the fresh default record, with
no error surfaced. -/
theorem C8_load_fails_soft :
    ∀ (startDate lastUpdate : String) (f : FileState),
      f = FileState.absent ∨ f = FileState.invalid →
      load_data (get_default_data startDate lastUpdate) f =
        get_default_data startDate lastUpdate := by
  intro startDate lastUpdate f h
  rcases h with h | h <;> rw [h] <;> rfl

/-- Witness for C8 at both failing file states. -/
theorem C8_witness :
    load_data (get_default_data "2024-01-01" "2024-01-01 10:00:00") FileState.absent =
      get_default_data "2024-01-01" "2024-01-01 10:00:00" ∧
    load_data (get_default_data "2024-01-01" "2024-01-01 10:00:00") FileState.invalid =
      get_default_data "2024-01-01" "2024-01-01 10:00:00" :=
  ⟨C8_load_fails_soft "2024-01-01" "2024-01-01 10:00:00" FileState.absent (Or.inl rfl),
   C8_load_fails_soft "2024-01-01" "2024-01-01 10:00:00" FileState.invalid (Or.inr rfl)⟩

/-- C9: `update_task` and `update_resource` on a stage id, task id or
resource id that does not exist fail with the uncaught `KeyError` (the
spec's InvalidReference, modelled by `none`), raised by the failing read
before any write: the in-memory record keeps its prior value and nothing is
persisted. -/
theorem C9_invalid_reference :
    (∀ (now stage_id task_id : String) (c : Bool) (t : Tracker),
        dget t.data.stages stage_id = none →
        update_task now stage_id task_id c t = none ∧
        update_resource now stage_id task_id c t = none) ∧
    (∀ (now stage_id task_id : String) (c : Bool) (t : Tracker) (stage : Stage),
        dget t.data.stages stage_id = some stage →
        dget stage.tasks task_id = none →
        update_task now stage_id task_id c t = none) ∧
    (∀ (now stage_id resource_id : String) (c : Bool) (t : Tracker) (stage : Stage),
        dget t.data.stages stage_id = some stage →
        stage.resources.bind (fun rs => dget rs resource_id) = none →
        update_resource now stage_id resource_id c t = none) := by
  refine ⟨?_, ?_, ?_⟩
  · intro now stage_id task_id c t h
    constructor
    · simp only [update_task, h]
    · simp only [update_resource, h]
  · intro now stage_id task_id c t stage h1 h2
    simp only [update_task, h1, h2]
  · intro now stage_id resource_id c t stage h1 h2
    cases hr : stage.resources with
    | none => simp only [update_resource, h1, hr]
    | some rs =>
      rw [hr] at h2
      simp only [Option.some_bind] at h2
      simp only [update_resource, h1, hr, h2]

/-- Witness for C9: a missing stage id, a missing task id and a missing
resource id on the small trackers. -/
theorem C9_witness :
    (update_task "n" "nope" "t1" true smallTracker = none ∧
     update_resource "n" "nope" "t1" true smallTracker = none) ∧
    update_task "n" "s1" "nope" true smallTracker = none ∧
    update_resource "n" "s1" "r9" true smallResTracker = none :=
  ⟨C9_invalid_reference.1 "n" "nope" "t1" true smallTracker
      (by simp [smallTracker, smallStage, dget]),
   C9_invalid_reference.2.1 "n" "s1" "nope" true smallTracker smallStage
      (by simp [smallTracker, smallStage, dget])
      (by simp [smallStage, dget]),
   C9_invalid_reference.2.2 "n" "s1" "r9" true smallResTracker smallResStage
      (by simp [smallResTracker, smallResStage, dget])
      (by simp [smallResStage, dget])⟩

/-- C3: the migration `fix_missing_data` with the curriculum default is
idempotent — `migrate (migrate x) = migrate x` for every input record — and
migrating the fresh default record returns it unchanged. -/
theorem C3_migrate_idempotent :
    ∀ (startDate lastUpdate : String) (x : Record),
      fix_missing_data (get_default_data startDate lastUpdate)
          (fix_missing_data (get_default_data startDate lastUpdate) x) =
        fix_missing_data (get_default_data startDate lastUpdate) x ∧
      fix_missing_data (get_default_data startDate lastUpdate)
          (get_default_data startDate lastUpdate) =
        get_default_data startDate lastUpdate :=
  fun startDate lastUpdate x =>
    ⟨fix_missing_data_idem defaultStages_keys_nodup x,
     fix_missing_data_eq_self defaultStages_keys_nodup _ rfl⟩

/-- C2 counterexample: on the default record with `stage1`'s (present)
`resources` mapping reduced to `resource1` alone, migration does NOT insert
the missing `resource2` — the claim that every missing resource entry is
inserted by id fails.  (`resource2` does exist in the default `stage1`.) -/
theorem C2_counterexample :
    ((dget (fix_missing_data defaultRecordC missingResourceRecord).stages
        "stage1").bind fun st => st.resources.bind fun rs => dget rs "resource2") =
      none ∧
    ((dget defaultRecordC.stages "stage1").bind fun st =>
        st.resources.bind fun rs => dget rs "resource2").isSome = true := by
  constructor
  · have hmem : ("stage1", stage1Default) ∈ defaultRecordC.stages := by
      simp [defaultRecordC, get_default_data, defaultStages]
    have hx : dget missingResourceRecord.stages "stage1" = some trimmedStage1 :=
      dget_dset_self
        (show dget defaultStages "stage1" = some stage1Default by
          simp [defaultStages, dget]) trimmedStage1
    have hfold := foldFix_present defaultStages_keys_nodup hmem hx
    show ((dget (defaultStages.foldl fixStep missingResourceRecord.stages)
        "stage1").bind fun st => st.resources.bind fun rs => dget rs "resource2") =
      none
    rw [hfold, Option.some_bind, fixStage_resources,
      if_neg (show ¬ trimmedStage1.resources = none by simp [trimmedStage1])]
    simp [trimmedStage1, dget]
  · simp [defaultRecordC, get_default_data, defaultStages, stage1Default, dget]

/-- C2 amended: for every stage id of CurriculumDefault present in the
input, migration inserts every missing default task entry (by id) and
leaves present task entries — and all of `name`, `completed`, `progress` —
unchanged; the `resources` mapping, however, is only installed wholesale
from the default when the input stage has no `resources` key at all, and is
left exactly as it is (missing individual entries included) otherwise. -/
theorem C2_migrate_present_stage :
    ∀ (startDate lastUpdate : String) (x : Record) (sid : String) (dst st : Stage),
      (sid, dst) ∈ (get_default_data startDate lastUpdate).stages →
      dget x.stages sid = some st →
      dget (fix_missing_data (get_default_data startDate lastUpdate) x).stages sid =
          some (fixStage dst st) ∧
      (fixStage dst st).name = st.name ∧
      (fixStage dst st).completed = st.completed ∧
      (fixStage dst st).progress = st.progress ∧
      (fixStage dst st).resources =
        (if st.resources = none then dst.resources else st.resources) ∧
      (∀ (tid : String) (tk : Task), dget st.tasks tid = some tk →
          dget (fixStage dst st).tasks tid = some tk) ∧
      (∀ q ∈ dst.tasks, dget st.tasks (Prod.fst q) = none →
          dget (fixStage dst st).tasks q.1 = some q.2) := by
  intro startDate lastUpdate x sid dst st hmem hx
  have htnd : (dst.tasks.map Prod.fst).Nodup :=
    defaultStages_tasks_keys_nodup (sid, dst) hmem
  refine ⟨foldFix_present defaultStages_keys_nodup hmem hx, fixStage_name dst st,
    fixStage_completed dst st, fixStage_progress dst st, fixStage_resources dst st,
    ?_, ?_⟩
  · intro tid tk h
    rw [fixStage_tasks]
    exact dget_addMissingTasks_of_some h dst.tasks
  · intro q hq h
    rw [fixStage_tasks]
    exact dget_addMissingTasks_of_missing htnd st.tasks q hq h

/-- Witness for the amended C2 at the fresh default record and `stage1`. -/
theorem C2_witness :
    dget (fix_missing_data (get_default_data "a" "b") (get_default_data "a" "b")).stages
        "stage1" = some (fixStage stage1Default stage1Default) :=
  (C2_migrate_present_stage "a" "b" (get_default_data "a" "b") "stage1"
      stage1Default stage1Default
      (by simp [get_default_data, defaultStages])
      (by simp [get_default_data, defaultStages, dget])).1

/-- C5 counterexample: saving the fresh default record (whose `last_update`
is `"2024-01-01 10:00:00"`) at time `"2024-06-01 12:00:00"` and loading back
yields a record that differs from the original in `metadata.last_update`:
`load (save x)` is not `x`. -/
theorem C5_counterexample :
    load_data defaultRecordC (save_data "2024-06-01 12:00:00" defaultTracker).file ≠
      defaultTracker.data := by
  have hload : load_data defaultRecordC
      (save_data "2024-06-01 12:00:00" defaultTracker).file =
      { defaultRecordC with metadata :=
          { defaultRecordC.metadata with last_update := "2024-06-01 12:00:00" } } := by
    show fix_missing_data defaultRecordC _ = _
    exact fix_missing_data_eq_self defaultStages_keys_nodup _ rfl
  rw [hload]
  intro h
  have h2 := congrArg (fun r => r.metadata.last_update) h
  simp [defaultTracker, defaultRecordC, get_default_data] at h2

/-- C5 amended: for every record fixed by migration (in particular every
record containing all default entries), saving at time `now` and loading
back returns the record with `metadata.last_update` overwritten by `now`
and everything else unchanged. -/
theorem C5_round_trip_stamps_last_update :
    ∀ (startDate lastUpdate now : String) (t : Tracker),
      fix_missing_data (get_default_data startDate lastUpdate) t.data = t.data →
      load_data (get_default_data startDate lastUpdate) (save_data now t).file =
        { t.data with metadata := { t.data.metadata with last_update := now } } := by
  intro startDate lastUpdate now t hvalid
  calc load_data (get_default_data startDate lastUpdate) (save_data now t).file
      = fix_missing_data (get_default_data startDate lastUpdate)
          { t.data with metadata := { t.data.metadata with last_update := now } } := rfl
    _ = { fix_missing_data (get_default_data startDate lastUpdate) t.data with
            metadata := { t.data.metadata with last_update := now } } := rfl
    _ = { t.data with metadata := { t.data.metadata with last_update := now } } := by
          rw [hvalid]

/-- Witness for the amended C5 at the default tracker. -/
theorem C5_witness :
    load_data (get_default_data "2024-01-01" "2024-01-01 10:00:00")
        (save_data "2024-06-01 12:00:00" defaultTracker).file =
      { defaultTracker.data with metadata :=
          { defaultTracker.data.metadata with last_update := "2024-06-01 12:00:00" } } :=
  C5_round_trip_stamps_last_update "2024-01-01" "2024-01-01 10:00:00"
    "2024-06-01 12:00:00" defaultTracker
    (fix_missing_data_eq_self defaultStages_keys_nodup _ rfl)

/-- C1 counterexample: from a state satisfying the progress invariant,
importing a well-shaped record whose stored `total_progress` (77) disagrees
with its (all-uncompleted) items succeeds, and the invariant fails
afterwards: the mutation operation `import_progress` does not recompute
progress. -/
theorem C1_counterexample :
    recordInvariant defaultTracker.data ∧
    (import_progress defaultRecordC (FileState.valid inconsistentTotalRecord)
        defaultTracker).2 = true ∧
    ¬ recordInvariant (import_progress defaultRecordC
        (FileState.valid inconsistentTotalRecord) defaultTracker).1.data := by
  refine ⟨default_recordInvariant "2024-01-01" "2024-01-01 10:00:00", rfl, ?_⟩
  intro hc
  have heq : (import_progress defaultRecordC
      (FileState.valid inconsistentTotalRecord) defaultTracker).1.data =
      inconsistentTotalRecord := by
    show fix_missing_data defaultRecordC inconsistentTotalRecord =
      inconsistentTotalRecord
    exact fix_missing_data_eq_self defaultStages_keys_nodup _ rfl
  rw [heq] at hc
  have h2 := hc.2
  norm_num [inconsistentTotalRecord, defaultStages, stage1Default,
    stage2Default, stage3Default, stage4Default] at h2

/-- C1 amended: the progress invariant is preserved by `update_task` and
`update_resource` and established by `reset_progress`; it is NOT re-established
by `import_progress`, which installs the migrated imported record verbatim
without recomputing any progress value. -/
theorem C1_invariant_after_mutations :
    (∀ (now stage_id task_id : String) (c : Bool) (t t' : Tracker),
        recordInvariant t.data →
        update_task now stage_id task_id c t = some t' →
        recordInvariant t'.data) ∧
    (∀ (now stage_id resource_id : String) (c : Bool) (t t' : Tracker),
        recordInvariant t.data →
        update_resource now stage_id resource_id c t = some t' →
        recordInvariant t'.data) ∧
    (∀ (startDate lastUpdate now : String) (t : Tracker),
        recordInvariant
          (reset_progress (get_default_data startDate lastUpdate) now t).data) := by
  refine ⟨?_, ?_, ?_⟩
  · intro now stage_id task_id c t t' hinv h
    cases h1 : dget t.data.stages stage_id with
    | none => simp [update_task, h1] at h
    | some stage =>
      cases h2 : dget stage.tasks task_id with
      | none => simp [update_task, h1, h2] at h
      | some task =>
        simp only [update_task, h1, h2] at h
        exact mutate_tail_invariant ⟨stage, h1⟩ hinv.1 h
  · intro now stage_id resource_id c t t' hinv h
    cases h1 : dget t.data.stages stage_id with
    | none => simp [update_resource, h1] at h
    | some stage =>
      cases hr : stage.resources with
      | none => simp [update_resource, h1, hr] at h
      | some resources =>
        cases h2 : dget resources resource_id with
        | none => simp [update_resource, h1, hr, h2] at h
        | some resource =>
          simp only [update_resource, h1, hr, h2] at h
          exact mutate_tail_invariant ⟨stage, h1⟩ hinv.1 h
  · intro startDate lastUpdate now t
    exact default_recordInvariant startDate lastUpdate

/-- Witness for the amended C1: a completed toggle on the one-task tracker,
one on the one-resource tracker, and a reset. -/
theorem C1_witness :
    recordInvariant smallTrackerAfter.data ∧
    recordInvariant smallResTrackerAfter.data ∧
    recordInvariant (reset_progress (get_default_data "a" "b") "now" smallTracker).data :=
  ⟨C1_invariant_after_mutations.1 "now" "s1" "t1" true smallTracker smallTrackerAfter
      (by simp [recordInvariant, smallTracker, smallStage, specStageProgress, List.filter])
      (by norm_num [update_task, dget, dset, smallTracker, smallStage, smallTrackerAfter,
        update_stage_progress, recompute_stage, update_total_progress, save_data,
        List.filter]),
   C1_invariant_after_mutations.2.1 "now" "s1" "r1" true smallResTracker smallResTrackerAfter
      (by simp [recordInvariant, smallResTracker, smallResStage, specStageProgress, List.filter])
      (by norm_num [update_resource, dget, dset, smallResTracker, smallResStage,
        smallResTrackerAfter, update_stage_progress, recompute_stage,
        update_total_progress, save_data, List.filter]),
   C1_invariant_after_mutations.2.2 "a" "b" "now" smallTracker⟩

end LearningTracker
